import Mathlib

/-!
Verification of the session phase state machine, strategy decision engine and
fuzzy command matcher of `python_chatbot/refractored_bot.py` (the Aire
therapeutic chatbot).  Each Python function the claims touch is shallowly
embedded as an executable Lean definition; external collaborators (OpenAI,
Gemini, the SQLAlchemy store) are modelled as oracles supplied through an
environment record, so that the control flow of the handler itself is the
object of proof.
-/

set_option maxRecDepth 16000

namespace Emoly

/-! ## Python string primitives

`str.strip()` / `str.lower()` restricted to the ASCII range (the only range
the control token and the test inputs use). -/

/-- ASCII whitespace recognised by Python `str.strip()`. -/
def pyWhitespace (c : Char) : Bool :=
  c = ' ' ∨ c = '\t' ∨ c = '\n' ∨ c = '\r' ∨ c = '\x0b' ∨ c = '\x0c'

/-- `str.strip()` on a character list: drop whitespace at both ends. -/
def pyStrip (l : List Char) : List Char :=
  ((l.dropWhile pyWhitespace).reverse.dropWhile pyWhitespace).reverse

/-- `str.lower()` (ASCII). -/
def pyLower (l : List Char) : List Char :=
  l.map Char.toLower

/-- `str.strip()` lifted to `String`. -/
def pyStripS (s : String) : String :=
  String.mk (pyStrip s.data)

/-! ## `difflib.SequenceMatcher` (no junk: `b` is the 10-character control
token, far below the 200-element autojunk threshold, and no `isjunk`
predicate is passed).

`find_longest_match` is the classic dynamic program: row `i` holds, for each
`j`, the length of the longest common block ending at `(i, j)`; the first
strictly longer block encountered (scanning `i` then `j` in increasing order)
becomes the best one, which reproduces difflib's earliest-in-`a`,
then-earliest-in-`b` tie-breaking.  With an empty junk set the two
block-extension loops of the Python source never fire, because the DP block
is already maximal. -/

/-- Next DP row: `newRow j = if b j = c then prevRow (j-1) + 1 else 0`.
`prev` is the suffix of the previous row from index `j` on and `diag` is
`prevRow (j-1)` (`0` at `j = 0`). -/
def smRow (c : Char) : List Char → List Nat → Nat → List Nat
  | [], _, _ => []
  | bj :: bs, prev, diag =>
    (if bj = c then diag + 1 else 0) :: smRow c bs prev.tail (prev.headD 0)

/-- Scan one DP row (row index `i`, entries from column `j` on), updating the
best `(besti, bestj, bestsize)` whenever a strictly longer block ends here. -/
def smScanRow (i : Nat) : Nat → List Nat → Nat × Nat × Nat → Nat × Nat × Nat
  | _, [], best => best
  | j, k :: ks, best =>
    let best' := if k > best.2.2 then (i + 1 - k, j + 1 - k, k) else best
    smScanRow i (j + 1) ks best'

/-- Run the DP over all rows of `a` (row counter `i`, previous row `prev`). -/
def smRows (b : List Char) : List Char → Nat → List Nat → Nat × Nat × Nat → Nat × Nat × Nat
  | [], _, _, best => best
  | c :: as', i, prev, best =>
    let r := smRow c b prev 0
    smRows b as' (i + 1) r (smScanRow i 0 r best)

/-- `SequenceMatcher.find_longest_match` over the whole strings: returns
`(i, j, k)`, the longest matching block `a[i:i+k] = b[j:j+k]` (earliest in
`a`, then in `b`; `(0, 0, 0)` when nothing matches). -/
def find_longest_match (a b : List Char) : Nat × Nat × Nat :=
  smRows b a 0 (List.replicate b.length 0) (0, 0, 0)

/-- Total number of matched characters over all matching blocks
(Ratcliff–Obershelp recursion used by `get_matching_blocks` /`ratio`):
take the longest block, then recurse on the pieces left of and right of it.
`fuel` only drives termination; `a.length + 1` always suffices because each
recursive call strictly shortens `a`. -/
def smMatchTotal : Nat → List Char → List Char → Nat
  | 0, _, _ => 0
  | fuel + 1, a, b =>
    let ijk := find_longest_match a b
    let i := ijk.1
    let j := ijk.2.1
    let k := ijk.2.2
    if k = 0 then 0
    else
      k + smMatchTotal fuel (a.take i) (b.take j) +
        smMatchTotal fuel (a.drop (i + k)) (b.drop (j + k))

/-- Matched-character count `M` of `SequenceMatcher(None, a, b)`. -/
def smMatches (a b : List Char) : Nat :=
  smMatchTotal (a.length + 1) a b

/-- `SequenceMatcher.ratio() = 2*M / (len a + len b)` as an exact rational
(difflib returns `1.0` when both strings are empty); `mkRat n d` is exactly
the rational `n / d` (see `Rat.mkRat_eq_divInt` and `Rat.divInt_eq_div`),
written in this kernel-computable form.  The Python value is a float; at the
string lengths involved here the float comparison against the threshold
agrees with the exact rational one. -/
def smRatio (a b : List Char) : ℚ :=
  if a.length + b.length = 0 then 1
  else mkRat (2 * smMatches a b) (a.length + b.length)

/-- The literal control token (`break_sentence` default). -/
def breakSentence : List Char := "endphase()".data

/-- Default `threshold` argument of `is_endphase_command`: the rational
`7 / 10` (in kernel-computable `mkRat` form; equality with `7 / 10` is part
of the C9 theorem). -/
def endphaseThresholdDefault : ℚ := mkRat 7 10

/-- `is_endphase_command(user_input, threshold=0.7, break_sentence="endphase()")`:
strip and lowercase the input, then fuzzy-compare it against the control
token. -/
def is_endphase_command (user_input : String) (threshold : ℚ) : Bool :=
  let t := pyLower (pyStrip user_input.data)
  decide (smRatio t breakSentence ≥ threshold)

/-! ## Strategy decision engine (`decide_strategy`, lines 299-638)

The `strategies` dict maps six template names to long instruction strings;
the prose of each template is opaque data for every claim, so each body is
abbreviated to its opening words plus the data interpolated into it.  Only
`Attentional Deployment` and `Response Modulation` are f-strings
interpolating `primary_emotion`; the other four (including
`Situation Selection`, whose `{primary_emotion}` placeholder sits in a
plain, non-f string) are constants. -/

/-- Template body for `Attentional Deployment` (f-string, lines 301-351;
prose abbreviated). -/
def attentionalDeploymentBody (primary_emotion : String) : String :=
  "You are a warm, present-centered guide ... The user feels " ++
    primary_emotion ++ " ... STEP 1. Sensory Anchoring ..."

/-- Template body for `Situation Modification` (plain string, lines 353-416;
prose abbreviated). -/
def situationModificationBody : String :=
  "You are a grounded, supportive guide helping the user explore ... situation modification ..."

/-- Template body for `Agency Cognitive Change` (plain string, lines 418-458;
prose abbreviated). -/
def agencyCognitiveChangeBody : String :=
  "You are a calm, empowering guide ... the Agency Method ..."

/-- Template body for `Positive Cognitive Change` (plain string, lines
460-505; prose abbreviated). -/
def positiveCognitiveChangeBody : String :=
  "You are a compassionate, reflective guide ... Explicitly Positive Reappraisal ..."

/-- Template body for `Response Modulation` (f-string, lines 507-561; prose
abbreviated). -/
def responseModulationBody (primary_emotion : String) : String :=
  "You are a gentle, encouraging guide helping someone upmodulate a positive emotion ... The user feels " ++
    primary_emotion ++ " ..."

/-- Template body for `Situation Selection` (plain string, lines 563-603;
prose abbreviated). -/
def situationSelectionBody : String :=
  "You are a calm, supportive guide helping a user reflect ... situation selection ..."

/-- The `strategies` dict of `decide_strategy` as an association list (six
keys, insertion order of the source). -/
def strategies (primary_emotion : String) : List (String × String) :=
  [("Attentional Deployment", attentionalDeploymentBody primary_emotion),
   ("Situation Modification", situationModificationBody),
   ("Agency Cognitive Change", agencyCognitiveChangeBody),
   ("Positive Cognitive Change", positiveCognitiveChangeBody),
   ("Response Modulation", responseModulationBody primary_emotion),
   ("Situation Selection", situationSelectionBody)]

/-- The six keys of the `strategies` dict. -/
def strategyKeys : List String :=
  ["Attentional Deployment", "Situation Modification", "Agency Cognitive Change",
   "Positive Cognitive Change", "Response Modulation", "Situation Selection"]

/-- Lines 606-624: map a fine-grained Plutchik label onto its basic category
(`base`); anything unrecognised falls through to `neutral`. -/
def emotionBase (primary_emotion : String) : String :=
  if primary_emotion ∈ ["rage", "anger", "annoyance"] then "anger"
  else if primary_emotion ∈ ["vigilance", "anticipation", "interest"] then "anticipation"
  else if primary_emotion ∈ ["ecstasy", "joy", "serenity"] then "joy"
  else if primary_emotion ∈ ["admiration", "trust", "acceptance"] then "trust"
  else if primary_emotion ∈ ["terror", "fear", "apprehension", "shame", "guilt"] then "fear"
  else if primary_emotion ∈ ["amazement", "surprise", "distraction"] then "surprise"
  else if primary_emotion ∈ ["grief", "sadness", "pensiveness"] then "sadness"
  else if primary_emotion ∈ ["loathing", "disgust", "boredom"] then "disgust"
  else "neutral"

/-- Lines 625-637: the `(first, second)` strategy-name pair chosen from the
basic category; `subtypeResult` is the value returned by the
`decide_reappraisal_subtype` sub-call (made lazily only on the branches that
use it). -/
def chooseStrategyPair (base : String) (subtypeResult : String) : String × String :=
  if base ∈ ["fear", "surprise", "sadness", "anger"] then
    ("Attentional Deployment", subtypeResult)
  else if base ∈ ["joy", "trust"] then
    ("Attentional Deployment", "Response Modulation")
  else if base = "disgust" then
    ("Situation Modification", subtypeResult)
  else
    ("Attentional Deployment", subtypeResult)

/-- Line 638, `return first, strategies[first], second,
strategies.get(second, strategies[second])`: Python evaluates the *default*
argument `strategies[second]` eagerly, so the lookup raises `KeyError`
whenever `second` is not a dict key, despite the `.get`.  (`first` is always
a key.)  The uninitialised-client sentinel `("error_openai_not_init", 0.0)`
tuple that `decide_reappraisal_subtype` can return is modelled by the string
`"error_openai_not_init"`: like the tuple, it is unequal to every dict key,
which is the only property the lookup consults.  `Except.error ()` models the
escaping `KeyError`. -/
def decide_strategy (primary_emotion : String) (subtypeResult : String) :
    Except Unit (String × String × String × String) :=
  match List.lookup (chooseStrategyPair (emotionBase primary_emotion) subtypeResult).1
          (strategies primary_emotion),
        List.lookup (chooseStrategyPair (emotionBase primary_emotion) subtypeResult).2
          (strategies primary_emotion) with
  | some fb, some sb =>
    .ok ((chooseStrategyPair (emotionBase primary_emotion) subtypeResult).1, fb,
         (chooseStrategyPair (emotionBase primary_emotion) subtypeResult).2, sb)
  | _, _ => .error ()

/-! ## The `/chat` request handler (lines 1017-1753)

The handler is embedded as a pure function of the inbound request, the
stored `Intervention` record for the request's session key, and an
environment of collaborator oracles (OpenAI call outcomes, the Gemini
summary text, whether `db_session.commit()` succeeds, ...).  A raised Python
exception that escapes to the handler's outermost `except` (which rolls the
session back and answers HTTP 500) is modelled by `Except.error` carrying
the durably committed record at the moment of the raise. -/

/-- One `{"role": ..., "content": ...}` message dict. -/
structure ChatMsg where
  role : String
  content : String
deriving DecidableEq, Repr

/-- The `Intervention` record fields the handler reads or writes.  Wall-clock
timestamp fields are abstracted to a written/not-written `Bool`, and the
duration to a present/absent marker, since no claim consults their values. -/
structure InterventionRec where
  current_phase : Option String := none
  insert_system_prompt : Option String := none
  conversation_start_time : Bool := false
  summary_phase1 : Option String := none
  emotion_before : Option String := none
  triggers : Option String := none
  primary_trigger : Option String := none
  first_strategy : Option String := none
  second_strategy : Option String := none
  phase2a_start_time : Bool := false
  phase2_prompt : Option String := none
  phase2b_prompt : Option String := none
  summary_phase2a : Option String := none
  emotion_after_phase2a : Option String := none
  phase2b_start_time : Bool := false
  summary_phase2b : Option String := none
  emotion_after_phase2b : Option String := none
  phase3_start_time : Bool := false
  phase3_prompt : Option String := none
  summary_phase3 : Option String := none
  emotion_after_phase3 : Option String := none
  conversation_end_time : Bool := false
  conversation_duration_seconds : Option Unit := none
  chat_transcript : Option (List ChatMsg) := none
  avg_user_input_length_words : Option ℚ := none
deriving DecidableEq, Repr

/-- Oracles for the external collaborators touched during one request.  One
outcome per collaborator per request (each collaborator is called at most
once per request, except the Plutchik classifier at the phase-1 exit, whose
two uses the claims never need to distinguish). -/
structure Env where
  /-- Is the module-level `openai_client` initialised? -/
  openaiInit : Bool
  /-- Does the `chat.completions.create` call inside
  `identify_emotion_plutchik` raise? -/
  emotionRaises : Bool
  /-- Parsed `(emotion, confidence)` of the classifier reply after the
  `data.get` defaults; `none` = `json.loads` raised. -/
  emotionParse : Option (String × ℚ)
  /-- Does the call inside `extract_trigger_types` raise? -/
  triggerRaises : Bool
  /-- Parsed trigger list; `none` = parsing raised (caught, yielding `[]`). -/
  triggerParse : Option (List String)
  /-- Does the call inside `decide_reappraisal_subtype` raise? -/
  subtypeRaises : Bool
  /-- Raw content of the reappraisal-subtype reply (before `.strip()`). -/
  subtypeContent : String
  /-- Text produced by `context_builder` (Gemini) for this request. -/
  summaryText : String
  /-- Does the reply-completion call of the non-command path raise? -/
  completionRaises : Bool
  /-- Content of the reply-completion response (before `.strip()`). -/
  completionText : String
  /-- Does `db_session.commit()` succeed during this request? -/
  commitOk : Bool
  /-- Is the Werkzeug shutdown hook available (phase-3 exit)? -/
  werkzeugAvailable : Bool
deriving DecidableEq, Repr

/-- Value returned by `extract_trigger_types`: normally a Python list, but
the uninitialised-client guard returns the tuple
`("error_openai_not_init", 0.0)` instead. -/
inductive TriggerResult where
  | list (l : List String)
  | errTuple
deriving DecidableEq, Repr

/-- `identify_emotion_plutchik` (lines 171-201): the uninitialised-client
guard returns the sentinel pair; an exception from the API call itself
propagates (only the `json.loads` parse is inside the `try`); unparseable
output yields `("neutral", 0.5)`. -/
def identify_emotion_plutchik (env : Env) : Except Unit (String × ℚ) :=
  if !env.openaiInit then .ok ("error_openai_not_init", 0)
  else if env.emotionRaises then .error ()
  else
    match env.emotionParse with
    | some ec => .ok ec
    | none => .ok ("neutral", mkRat 1 2)

/-- `extract_trigger_types` (lines 204-248): uninitialised client returns the
error tuple; an exception from the API call propagates; a parse failure is
caught and yields the empty list. -/
def extract_trigger_types (env : Env) : Except Unit TriggerResult :=
  if !env.openaiInit then .ok .errTuple
  else if env.triggerRaises then .error ()
  else .ok (.list (env.triggerParse.getD []))

/-- `decide_reappraisal_subtype` (lines 251-296): uninitialised client
returns the error tuple (modelled, as in `decide_strategy`, by its
not-a-dict-key string rendering); an exception propagates; otherwise the
stripped reply content is returned verbatim. -/
def decide_reappraisal_subtype (env : Env) : Except Unit String :=
  if !env.openaiInit then .ok "error_openai_not_init"
  else if env.subtypeRaises then .error ()
  else .ok (pyStripS env.subtypeContent)

/-- `decide_strategy` as called by the handler: the reappraisal-subtype
sub-call is made lazily, only on the branches whose `second` is its result
(the joy/trust branch never consults it). -/
def decide_strategy_call (primary_emotion : String) (env : Env) :
    Except Unit (String × String × String × String) :=
  if emotionBase primary_emotion ∈ ["joy", "trust"] then
    decide_strategy primary_emotion "Response Modulation"
  else
    match decide_reappraisal_subtype env with
    | .error e => .error e
    | .ok sub => decide_strategy primary_emotion sub

/-- The initial Phase-1 system prompt (lines 1114-1154; prose abbreviated —
its text, including the interpolated heart-rate reading, is opaque data for
every claim). -/
def initialSystemPrompt : String :=
  "You are Aire, a warm, emotionally attuned therapeutic guide. ... WPVA ..."

/-- `phase2_system_prompt_content` (lines 1213-1220; prose abbreviated, the
interpolated data kept). -/
def phase2_system_prompt_content
    (primary_emotion primary_trigger first_strat first_prompt : String) : String :=
  "You are Aire ... Phase 2a ... The user\x27s dominant emotion is: " ++ primary_emotion ++
    ". Their identified trigger is: " ++ primary_trigger ++
    ". You will guide the user through the first strategy: " ++ first_strat ++
    ". FIRST STRATEGY: " ++ first_prompt

/-- `phase2b_system_prompt_content` (lines 1222-1229; prose abbreviated). -/
def phase2b_system_prompt_content
    (primary_emotion primary_trigger second_strat second_prompt : String) : String :=
  "You are a therapist ... Phase 2b ... The user\x27s dominant emotion is: " ++ primary_emotion ++
    ". Their identified trigger is: " ++ primary_trigger ++
    ". You will guide the user through the second strategy: " ++ second_strat ++
    ". SECOND STRATEGY: " ++ second_prompt

/-- `phase3_system_prompt_content` (lines 1321-1363): a plain (non-f)
triple-quoted literal, so its placeholder braces are never interpolated;
prose abbreviated. -/
def phase3_system_prompt_content : String :=
  "Ignore the previous system instructions. ... Guided Reflection ..."

/-- `session_end_system_prompt` (lines 1401-1404). -/
def session_end_system_prompt : String :=
  "The session has now concluded. This chat will no longer provide therapeutic guidance. You can close this chat window now by typing \x27endphase()\x27."

/-- Reply of the unknown-phase fallback branch (line 1453). -/
def lostMyPlaceReply : String :=
  "I seem to have lost my place in our conversation. Could we try starting this section again?"

/-- Static acknowledgment replied at the phase-2a exit (line 1281). -/
def phase2aAckReply : String :=
  "You\x27re doing great! Ready to get into the next strategy?"

/-- Reply when the reply-completion call raises (line 1725). -/
def completionFailureReply : String :=
  "Sorry, I encountered an issue trying to process that."

/-- `list.insert(-1, m)`: insert `m` before the last element (append when the
list is empty), used for the session-end notice (line 1408). -/
def insertBeforeLast (l : List ChatMsg) (m : ChatMsg) : List ChatMsg :=
  l.take (l.length - 1) ++ [m] ++ l.drop (l.length - 1)

/-- The phase-2b injection loop (lines 1592-1603): replace the first
`system` message with the stored prompt, or prepend it when none exists. -/
def replaceFirstSystemAux : List ChatMsg → String → Option (List ChatMsg)
  | [], _ => none
  | m :: ms, p =>
    if m.role = "system" then some (ChatMsg.mk "system" p :: ms)
    else (replaceFirstSystemAux ms p).map (m :: ·)

/-- See `replaceFirstSystemAux`. -/
def replaceFirstSystem (l : List ChatMsg) (p : String) : List ChatMsg :=
  (replaceFirstSystemAux l p).getD (ChatMsg.mk "system" p :: l)

/-- Word counter matching Python `str.split()` (maximal nonwhitespace runs). -/
def pyWordCountAux : List Char → Bool → Nat
  | [], _ => 0
  | c :: cs, inWord =>
    if pyWhitespace c then pyWordCountAux cs false
    else (if inWord then 0 else 1) + pyWordCountAux cs true

/-- `len(str(content).split())`. -/
def pyWordCount (s : String) : Nat :=
  pyWordCountAux s.data false

/-- Does `l` start with `p`? -/
def charsStartWith : List Char → List Char → Bool
  | _, [] => true
  | [], _ :: _ => false
  | c :: cs, d :: ds => c = d && charsStartWith cs ds

/-- Python `str.split(sep)` for a fixed nonempty separator: greedy
left-to-right, non-overlapping.  `fuel` only drives termination; the input
length always suffices because every step consumes at least one character. -/
def pySplitOnAux (sep : List Char) : Nat → List Char → List Char → List (List Char)
  | _, [], acc => [acc.reverse]
  | 0, l, acc => [acc.reverse ++ l]
  | fuel + 1, c :: cs, acc =>
    if charsStartWith (c :: cs) sep then
      acc.reverse :: pySplitOnAux sep fuel (cs.drop (sep.length - 1)) []
    else pySplitOnAux sep fuel cs (c :: acc)

/-- See `pySplitOnAux`. -/
def pySplitOn (l sep : List Char) : List (List Char) :=
  pySplitOnAux sep l.length l []

/-- Chunking of the completion reply (lines 1689-1705): split on blank lines
(`"\n\n" in bot_reply` is equivalent to the split having more than one
part); otherwise, for long or many-line replies, split on newlines; fall
back to the whole reply. -/
def splitChunks (s : String) : List String :=
  let chunks :=
    if (pySplitOn s.data ['\n', '\n']).length > 1 then
      ((pySplitOn s.data ['\n', '\n']).map (fun c => pyStripS (String.mk c))).filter (· ≠ "")
    else if (pySplitOn s.data ['\n']).length > 3 ∨ s.data.length > 200 then
      ((pySplitOn s.data ['\n']).map (fun c => pyStripS (String.mk c))).filter (· ≠ "")
    else []
  if chunks = [] then [s] else chunks

/-- Inbound request body (`participant_id` is assumed present: its absence
short-circuits to HTTP 400 before any session handling). -/
structure ChatRequest where
  user_message : String
  history : List ChatMsg
  is_new_session : Bool
deriving DecidableEq, Repr

/-- Outcome returned to the client. -/
inductive ChatResp where
  /-- Normal `jsonify` success payload (`bot_response` chunks, history). -/
  | ok (bot_response : List String) (history : List ChatMsg)
  /-- 200 payload with a `reply` key, produced when the reply-completion
  call raises (lines 1723-1739). -/
  | completionErrorReply (reply : String) (history : List ChatMsg)
  /-- An error status response (uninitialised client 500, or the outermost
  `except` 500). -/
  | httpError (code : Nat)
  /-- The phase-3 exit's `Server shutting down...` plain-text return. -/
  | shutdownText
deriving DecidableEq, Repr

/-- Result of one request: the stored record afterwards, the response, and
(when the reply-completion collaborator was invoked) the exact message list
passed to it. -/
structure ChatResult where
  record : Option InterventionRec
  resp : ChatResp
  sentToCompletion : Option (List ChatMsg)
deriving DecidableEq, Repr

/-- A `db_session.commit()` wrapped in `try/except` with `rollback()`: on
failure the durable state stays `old`. -/
def tryCommit (env : Env) (old candidate : InterventionRec) : InterventionRec :=
  if env.commitOk then candidate else old

/-- Record created by the new-session path (lines 1063-1071): phase `"1"`
and the `"initial"` prompt marker are passed to the constructor explicitly. -/
def newSessionRec : InterventionRec :=
  { current_phase := some "1", insert_system_prompt := some "initial",
    conversation_start_time := true }

/-- Modelled from the spec: the `Intervention` ORM schema lives in
`data_base.py`, which is missing from the source tree, so its column
defaults are unknown; the spec names none, and a SQLAlchemy column without a
declared default is NULL, so columns the constructor is not passed are
modelled as absent.  The recovery-path constructor (lines 1084-1088) passes
only the two ids and the start time — unlike the new-session constructor it
passes neither `current_phase` nor `insert_system_prompt`. -/
def recoveredRec : InterventionRec :=
  { conversation_start_time := true }

/-- Phase-1 → 2a exit (lines 1177-1262). -/
def exitPhase1 (env : Env) (rec1 : InterventionRec) (historyToSend : List ChatMsg) :
    Except (Option InterventionRec) (InterventionRec × ChatResp) :=
  match extract_trigger_types env with
  | .error _ => .error (some rec1)
  | .ok trigRes =>
    match identify_emotion_plutchik env with
    | .error _ => .error (some rec1)
    | .ok pe =>
      let primary_emotion := pe.1
      -- `triggers[0] if triggers else "unknown"`: a nonempty tuple is
      -- truthy, so the error tuple contributes its first component.
      let primary_trigger :=
        match trigRes with
        | .list (t :: _) => t
        | .list [] => "unknown"
        | .errTuple => "error_openai_not_init"
      match decide_strategy_call primary_emotion env with
      | .error _ => .error (some rec1)
      | .ok out =>
        let first_strat := out.1
        let first_prompt := out.2.1
        let second_strat := out.2.2.1
        let second_prompt := out.2.2.2
        let summary1 := env.summaryText
        -- `", ".join(triggers) if isinstance(triggers, list) else str(triggers)`
        let triggersStr :=
          match trigRes with
          | .list l => String.intercalate ", " l
          | .errTuple => "(\x27error_openai_not_init\x27, 0.0)"
        let cand := { rec1 with
          summary_phase1 := some summary1,
          emotion_before := some primary_emotion,
          triggers := some triggersStr,
          primary_trigger := some primary_trigger,
          first_strategy := some first_strat,
          second_strategy := some second_strat,
          phase2a_start_time := true,
          insert_system_prompt := some "phase2a",
          current_phase := some "2a" }
        let rec2 := tryCommit env rec1 cand
        let p2a := phase2_system_prompt_content primary_emotion primary_trigger
          first_strat first_prompt
        let p2b := phase2b_system_prompt_content primary_emotion primary_trigger
          second_strat second_prompt
        -- Second update (lines 1239-1262): store both phase-2 prompts.
        let rec3 := tryCommit env rec2
          { rec2 with phase2_prompt := some p2a, phase2b_prompt := some p2b }
        .ok (rec3, .ok [summary1] (historyToSend ++ [ChatMsg.mk "assistant" summary1]))

/-- Phase-2a → 2b exit (lines 1266-1303).  The re-query of the record always
finds the record the handler already holds, so the not-found error branch of
the source is unreachable in this embedding. -/
def exitPhase2a (env : Env) (rec1 : InterventionRec) (historyToSend : List ChatMsg) :
    Except (Option InterventionRec) (InterventionRec × ChatResp) :=
  let summary2a := env.summaryText
  match identify_emotion_plutchik env with
  | .error _ => .error (some rec1)
  | .ok pe =>
    let cand := { rec1 with
      summary_phase2a := some summary2a,
      emotion_after_phase2a := some pe.1,
      phase2b_start_time := true,
      insert_system_prompt := some "phase2b",
      current_phase := some "2b" }
    .ok (tryCommit env rec1 cand,
      .ok [phase2aAckReply] (historyToSend ++ [ChatMsg.mk "assistant" phase2aAckReply]))

/-- Phase-2b → 3 exit (lines 1305-1383). -/
def exitPhase2b (env : Env) (rec1 : InterventionRec) (historyToSend : List ChatMsg) :
    Except (Option InterventionRec) (InterventionRec × ChatResp) :=
  let summary2b := env.summaryText
  match identify_emotion_plutchik env with
  | .error _ => .error (some rec1)
  | .ok pe =>
    let cand := { rec1 with
      phase3_start_time := true,
      summary_phase2b := some summary2b,
      phase3_prompt := some phase3_system_prompt_content,
      insert_system_prompt := some "phase3",
      current_phase := some "3",
      emotion_after_phase2b := some pe.1 }
    .ok (tryCommit env rec1 cand,
      .ok [summary2b] (historyToSend ++ [ChatMsg.mk "assistant" summary2b]))

/-- Phase-3 → 4 (closed) exit (lines 1385-1450), ending with the Werkzeug
server shutdown; an unavailable shutdown hook raises `RuntimeError` *after*
the commit. -/
def exitPhase3 (env : Env) (rec1 : InterventionRec) (historyToSend : List ChatMsg) :
    Except (Option InterventionRec) (InterventionRec × ChatResp) :=
  let summary3 := env.summaryText
  match identify_emotion_plutchik env with
  | .error _ => .error (some rec1)
  | .ok pe =>
    let historySend2 :=
      insertBeforeLast historyToSend (ChatMsg.mk "system" session_end_system_prompt) ++
        [ChatMsg.mk "assistant" summary3]
    let userMsgs := historySend2.filter (fun m => m.role = "user")
    let totalWords := (userMsgs.map (fun m => pyWordCount m.content)).sum
    -- `total / len` when any user messages exist, `0.0` otherwise — which is
    -- exactly `mkRat total len`, since `mkRat _ 0 = 0`.
    let avgWords : ℚ := mkRat totalWords userMsgs.length
    let cand := { rec1 with
      summary_phase3 := some summary3,
      emotion_after_phase3 := some pe.1,
      current_phase := some "4",
      conversation_end_time := true,
      conversation_duration_seconds :=
        if rec1.conversation_start_time then some () else none,
      chat_transcript := some historySend2,
      avg_user_input_length_words := some avgWords }
    let rec2 := tryCommit env rec1 cand
    if env.werkzeugAvailable then .ok (rec2, .shutdownText)
    else .error (some rec2)

/-- The pending-prompt dispatch of the non-command path (lines 1491-1673).
For `"phase2a"` and `"phase3"` the stored prompt is always *inserted at
position 0* — in both arms of the loop, including the arm whose comment says
replace — and the marker is then (re)written with the same value and
committed; for `"phase2b"` the first system message is genuinely replaced
and the marker is left untouched. -/
def injectPending (env : Env) (marker : Option String) (rec1 : InterventionRec)
    (historyApi : List ChatMsg) : InterventionRec × List ChatMsg :=
  match marker with
  | some m =>
    if m = "phase2a" then
      match rec1.phase2_prompt with
      | some p =>
        (tryCommit env rec1 { rec1 with insert_system_prompt := some "phase2a" },
         ChatMsg.mk "system" p :: historyApi)
      | none =>
        (tryCommit env rec1 { rec1 with insert_system_prompt := some "phase2a" },
         historyApi)
    else if m = "phase2b" then
      match rec1.phase2b_prompt with
      | some p => (rec1, replaceFirstSystem historyApi p)
      | none => (rec1, historyApi)
    else if m = "phase3" then
      match rec1.phase3_prompt with
      | some p =>
        (tryCommit env rec1 { rec1 with insert_system_prompt := some "phase3" },
         ChatMsg.mk "system" p :: historyApi)
      | none =>
        (tryCommit env rec1 { rec1 with insert_system_prompt := some "phase3" },
         historyApi)
    else (rec1, historyApi)
  | none => (rec1, historyApi)

/-- The non-command (continue) path (lines 1469-1739). -/
def nonCommandStep (env : Env) (rec1 : InterventionRec) (marker : Option String)
    (historyApi historyToSend : List ChatMsg) :
    Except (Option InterventionRec) (InterventionRec × ChatResp × Option (List ChatMsg)) :=
  if !env.openaiInit then .ok (rec1, .httpError 500, none)
  else
    let ir := injectPending env marker rec1 historyApi
    if env.completionRaises then
      .ok (ir.1,
        .completionErrorReply completionFailureReply
          (historyToSend ++ [ChatMsg.mk "assistant" completionFailureReply]),
        some ir.2)
    else
      let botReply := pyStripS env.completionText
      .ok (ir.1,
        .ok (splitChunks botReply) (historyToSend ++ [ChatMsg.mk "assistant" botReply]),
        some ir.2)

/-- The handler body inside the outermost `try`. -/
def chatInner (req : ChatRequest) (env : Env) (store : Option InterventionRec) :
    Except (Option InterventionRec) (InterventionRec × ChatResp × Option (List ChatMsg)) :=
  -- Session & intervention handling (lines 1056-1094): the new-session and
  -- recovery constructors commit outside any try, so a failing commit
  -- raises.  The recovery path also sets `is_new_session = True`, but that
  -- variable is never read again afterwards.
  let rec0? : Except (Option InterventionRec) InterventionRec :=
    if req.is_new_session then
      (if env.commitOk then .ok newSessionRec else .error none)
    else
      match store with
      | some r => .ok r
      | none => (if env.commitOk then .ok recoveredRec else .error none)
  match rec0? with
  | .error e => .error e
  | .ok rec0 =>
    let marker := rec0.insert_system_prompt
    -- Initial-prompt block (lines 1113-1164): prepend the initial system
    -- prompt and rewrite the marker with the same value `"initial"`.
    let pre :=
      if marker = some "initial" then
        (tryCommit env rec0 { rec0 with insert_system_prompt := some "initial" },
         [ChatMsg.mk "system" initialSystemPrompt])
      else (rec0, ([] : List ChatMsg))
    let rec1 := pre.1
    let historyApi := pre.2 ++ req.history ++ [ChatMsg.mk "user" req.user_message]
    let historyToSend := req.history ++ [ChatMsg.mk "user" req.user_message]
    if is_endphase_command req.user_message endphaseThresholdDefault then
      -- The `if current_phase == "1" / elif ... / else` chain of lines
      -- 1177-1454; note `"4"` matches no arm and falls to the fallback.
      let r :=
        if rec1.current_phase = some "1" then exitPhase1 env rec1 historyToSend
        else if rec1.current_phase = some "2a" then exitPhase2a env rec1 historyToSend
        else if rec1.current_phase = some "2b" then exitPhase2b env rec1 historyToSend
        else if rec1.current_phase = some "3" then exitPhase3 env rec1 historyToSend
        else
          .ok (rec1, .ok [lostMyPlaceReply]
            (historyToSend ++ [ChatMsg.mk "assistant" lostMyPlaceReply]))
      match r with
      | .error e => .error e
      | .ok p => .ok (p.1, p.2, none)
    else
      nonCommandStep env rec1 marker historyApi historyToSend

/-- The `/chat` handler: `chatInner` under the outermost `try/except`, whose
`except` arm rolls back uncommitted changes and answers HTTP 500. -/
def chat (req : ChatRequest) (env : Env) (store : Option InterventionRec) : ChatResult :=
  match chatInner req env store with
  | .ok (r, resp, sent) => ⟨some r, resp, sent⟩
  | .error (some r) => ⟨some r, .httpError 500, none⟩
  | .error none => ⟨store, .httpError 500, none⟩

/-! ## Specification-side phase order and shared concrete fixtures -/

/-- Position of a stored phase value in the spec's total order
Identification (`"1"`) < StrategyOne (`"2a"`) < StrategyTwo (`"2b"`) <
Reflection (`"3"`) < Closed (`"4"`); unknown phase values rank `0`. -/
def phaseRank : Option String → Nat
  | some p =>
    if p = "1" then 1 else if p = "2a" then 2 else if p = "2b" then 3
    else if p = "3" then 4 else if p = "4" then 5 else 0
  | none => 0

/-- Immediate successor in the phase order (identity off the known phases). -/
def phaseSucc (p : String) : String :=
  if p = "1" then "2a" else if p = "2a" then "2b" else if p = "2b" then "3"
  else if p = "3" then "4" else p

/-- A fully healthy collaborator environment. -/
def goodEnv : Env :=
  { openaiInit := true, emotionRaises := false, emotionParse := some ("sadness", mkRat 9 10),
    triggerRaises := false, triggerParse := some ["relationship trigger"],
    subtypeRaises := false, subtypeContent := "Positive Cognitive Change",
    summaryText := "SUMMARY", completionRaises := false, completionText := "REPLY",
    commitOk := true, werkzeugAvailable := true }

/-- A literal `endphase()` command request for an ongoing session. -/
def endphaseReq : ChatRequest :=
  { user_message := "endphase()", history := [], is_new_session := false }

/-- A session freshly created by the new-session path, still in phase 1. -/
def phase1Rec : InterventionRec := newSessionRec

/-- A session in the Closed phase (`"4"`); the 3→4 exit leaves the prompt
marker at `"phase3"`. -/
def closedRec : InterventionRec :=
  { current_phase := some "4", insert_system_prompt := some "phase3" }

/-- A session in phase `"2b"` as the 2a→2b exit leaves it. -/
def phase2bRec : InterventionRec :=
  { current_phase := some "2b", insert_system_prompt := some "phase2b",
    emotion_before := some "sadness", primary_trigger := some "relationship trigger",
    first_strategy := some "Attentional Deployment",
    second_strategy := some "Positive Cognitive Change",
    phase2_prompt := some "P2A", phase2b_prompt := some "P2B" }

/-- A session in phase `"2a"` with both stored phase-2 prompts, as the 1→2a
exit leaves it (prompt texts abbreviated). -/
def phase2aRec : InterventionRec :=
  { current_phase := some "2a", insert_system_prompt := some "phase2a",
    emotion_before := some "sadness", primary_trigger := some "relationship trigger",
    first_strategy := some "Attentional Deployment",
    second_strategy := some "Positive Cognitive Change",
    phase2_prompt := some "P2A", phase2b_prompt := some "P2B" }

/-- Environment whose `db_session.commit()` calls fail. -/
def envCommitFail : Env := { goodEnv with commitOk := false }

/-- Environment whose emotion-classification API call raises. -/
def envEmotionRaises : Env := { goodEnv with emotionRaises := true }

/-- Environment whose classifier calls return unparseable output. -/
def envUnparseable : Env := { goodEnv with emotionParse := none, triggerParse := none }

/-- A client history that already carries a system-prompt block. -/
def sysHist : List ChatMsg :=
  [ChatMsg.mk "system" "OLDPROMPT", ChatMsg.mk "user" "u1"]

/-- A non-command continue request over `sysHist`. -/
def contReq : ChatRequest :=
  { user_message := "ok", history := sysHist, is_new_session := false }

/-- Stored record after one `endphase()` command on `phase1Rec`. -/
def c1FirstRecord : Option InterventionRec :=
  (chat endphaseReq goodEnv (some phase1Rec)).record

/-- Stored record after a second `endphase()` command in immediate
succession. -/
def c1SecondRecord : Option InterventionRec :=
  c1FirstRecord.bind (fun r => (chat endphaseReq goodEnv (some r)).record)

/-- Stored record after an `endphase()` command on `phase1Rec` when the
classifier replies are unparseable. -/
def c7AfterRecord : Option InterventionRec :=
  (chat endphaseReq envUnparseable (some phase1Rec)).record

/-! ## Helper lemmas about the strategy engine -/

lemma emotionBase_mem (e : String) :
    emotionBase e ∈
      ["anger", "anticipation", "joy", "trust", "fear", "surprise", "sadness", "disgust", "neutral"] := by
  unfold emotionBase
  split_ifs <;> simp

lemma chooseStrategyPair_first (base sub : String) :
    (chooseStrategyPair base sub).1 = "Attentional Deployment" ∨
      (chooseStrategyPair base sub).1 = "Situation Modification" := by
  unfold chooseStrategyPair
  split_ifs <;> simp

lemma chooseStrategyPair_second (base sub : String) :
    (chooseStrategyPair base sub).2 = sub ∨
      (chooseStrategyPair base sub).2 = "Response Modulation" := by
  unfold chooseStrategyPair
  split_ifs <;> simp

lemma chooseStrategyPair_second_eq (base sub : String) (h : base ∉ ["joy", "trust"]) :
    (chooseStrategyPair base sub).2 = sub := by
  unfold chooseStrategyPair
  split_ifs <;> simp_all

lemma lookup_strategies_some (e k : String) (h : k ∈ strategyKeys) :
    ∃ v, List.lookup k (strategies e) = some v := by
  simp only [strategyKeys, List.mem_cons, List.not_mem_nil, or_false] at h
  rcases h with rfl | rfl | rfl | rfl | rfl | rfl <;> simp [strategies, List.lookup]

lemma lookup_strategies_none (e k : String) (h : k ∉ strategyKeys) :
    List.lookup k (strategies e) = none := by
  simp only [strategyKeys, List.mem_cons, List.not_mem_nil, or_false, not_or] at h
  obtain ⟨h1, h2, h3, h4, h5, h6⟩ := h
  have b1 : (k == "Attentional Deployment") = false := beq_eq_false_iff_ne.mpr h1
  have b2 : (k == "Situation Modification") = false := beq_eq_false_iff_ne.mpr h2
  have b3 : (k == "Agency Cognitive Change") = false := beq_eq_false_iff_ne.mpr h3
  have b4 : (k == "Positive Cognitive Change") = false := beq_eq_false_iff_ne.mpr h4
  have b5 : (k == "Response Modulation") = false := beq_eq_false_iff_ne.mpr h5
  have b6 : (k == "Situation Selection") = false := beq_eq_false_iff_ne.mpr h6
  simp [strategies, List.lookup, b1, b2, b3, b4, b5, b6]

lemma decide_strategy_ok_of_key (e sub : String) (h : sub ∈ strategyKeys) :
    ∃ out, decide_strategy e sub = Except.ok out := by
  unfold decide_strategy
  have hf : (chooseStrategyPair (emotionBase e) sub).1 ∈ strategyKeys := by
    rcases chooseStrategyPair_first (emotionBase e) sub with h1 | h1 <;>
      rw [h1] <;> simp [strategyKeys]
  have hs : (chooseStrategyPair (emotionBase e) sub).2 ∈ strategyKeys := by
    rcases chooseStrategyPair_second (emotionBase e) sub with h2 | h2 <;> rw [h2]
    · exact h
    · simp [strategyKeys]
  obtain ⟨v1, hv1⟩ := lookup_strategies_some e _ hf
  obtain ⟨v2, hv2⟩ := lookup_strategies_some e _ hs
  rw [hv1, hv2]
  exact ⟨_, rfl⟩

/-! ## Helper lemmas about the `/chat` handler -/

lemma tryCommit_phase (env : Env) (old cand : InterventionRec) :
    (tryCommit env old cand).current_phase =
      if env.commitOk then cand.current_phase else old.current_phase := by
  unfold tryCommit
  split <;> simp_all

lemma nonCommandStep_ok (env : Env) (rec1 : InterventionRec) (marker : Option String)
    (hApi hSend : List ChatMsg) :
    ∃ out, nonCommandStep env rec1 marker hApi hSend = .ok out ∧
      out.1.current_phase = rec1.current_phase := by
  unfold nonCommandStep injectPending tryCommit
  dsimp only
  repeat' split
  all_goals exact ⟨_, rfl, rfl⟩

lemma exitPhase1_ok_phase (env : Env) (rec1 : InterventionRec) (hts : List ChatMsg)
    (r2 : InterventionRec) (resp : ChatResp)
    (h : exitPhase1 env rec1 hts = .ok (r2, resp)) :
    r2.current_phase = if env.commitOk then some "2a" else rec1.current_phase := by
  unfold exitPhase1 at h
  dsimp only at h
  repeat' split at h
  all_goals first
    | (injection h with h'
       injection h' with h1 h2
       subst h1
       rcases hcm : env.commitOk with _ | _ <;> simp_all [tryCommit])
    | injection h

lemma exitPhase1_err (env : Env) (rec1 : InterventionRec) (hts : List ChatMsg)
    (o : Option InterventionRec) (h : exitPhase1 env rec1 hts = .error o) :
    o = some rec1 := by
  unfold exitPhase1 at h
  dsimp only at h
  repeat' split at h
  all_goals first
    | (injection h with h'
       exact h'.symm)
    | injection h

lemma exitPhase2a_ok_phase (env : Env) (rec1 : InterventionRec) (hts : List ChatMsg)
    (r2 : InterventionRec) (resp : ChatResp)
    (h : exitPhase2a env rec1 hts = .ok (r2, resp)) :
    r2.current_phase = if env.commitOk then some "2b" else rec1.current_phase := by
  unfold exitPhase2a at h
  dsimp only at h
  repeat' split at h
  all_goals first
    | (injection h with h'
       injection h' with h1 h2
       subst h1
       rcases hcm : env.commitOk with _ | _ <;> simp_all [tryCommit])
    | injection h

lemma exitPhase2a_err (env : Env) (rec1 : InterventionRec) (hts : List ChatMsg)
    (o : Option InterventionRec) (h : exitPhase2a env rec1 hts = .error o) :
    o = some rec1 := by
  unfold exitPhase2a at h
  dsimp only at h
  repeat' split at h
  all_goals first
    | (injection h with h'
       exact h'.symm)
    | injection h

lemma exitPhase2b_ok_phase (env : Env) (rec1 : InterventionRec) (hts : List ChatMsg)
    (r2 : InterventionRec) (resp : ChatResp)
    (h : exitPhase2b env rec1 hts = .ok (r2, resp)) :
    r2.current_phase = if env.commitOk then some "3" else rec1.current_phase := by
  unfold exitPhase2b at h
  dsimp only at h
  repeat' split at h
  all_goals first
    | (injection h with h'
       injection h' with h1 h2
       subst h1
       rcases hcm : env.commitOk with _ | _ <;> simp_all [tryCommit])
    | injection h

lemma exitPhase2b_err (env : Env) (rec1 : InterventionRec) (hts : List ChatMsg)
    (o : Option InterventionRec) (h : exitPhase2b env rec1 hts = .error o) :
    o = some rec1 := by
  unfold exitPhase2b at h
  dsimp only at h
  repeat' split at h
  all_goals first
    | (injection h with h'
       exact h'.symm)
    | injection h

lemma exitPhase3_ok_phase (env : Env) (rec1 : InterventionRec) (hts : List ChatMsg)
    (r2 : InterventionRec) (resp : ChatResp)
    (h : exitPhase3 env rec1 hts = .ok (r2, resp)) :
    r2.current_phase = if env.commitOk then some "4" else rec1.current_phase := by
  unfold exitPhase3 at h
  dsimp only at h
  repeat' split at h
  all_goals first
    | (injection h with h'
       injection h' with h1 h2
       subst h1
       rcases hcm : env.commitOk with _ | _ <;> simp_all [tryCommit])
    | injection h

lemma exitPhase3_err (env : Env) (rec1 : InterventionRec) (hts : List ChatMsg)
    (o : Option InterventionRec) (h : exitPhase3 env rec1 hts = .error o) :
    o = some rec1 ∨
      ∃ r2, o = some r2 ∧
        r2.current_phase = (if env.commitOk then some "4" else rec1.current_phase) := by
  unfold exitPhase3 at h
  dsimp only at h
  repeat' split at h
  all_goals first
    | (injection h with h'
       first
         | exact Or.inl h'.symm
         | (right
            refine ⟨_, h'.symm, ?_⟩
            rcases hcm : env.commitOk with _ | _ <;> simp_all [tryCommit]))
    | injection h

lemma identify_ok (env : Env) (hini : env.openaiInit = true) (hemo : env.emotionRaises = false) :
    ∃ ec, identify_emotion_plutchik env = .ok ec := by
  unfold identify_emotion_plutchik
  rcases env.emotionParse with _ | ec <;> simp [hini, hemo]

lemma extract_ok (env : Env) (hini : env.openaiInit = true) (htri : env.triggerRaises = false) :
    ∃ tr, extract_trigger_types env = .ok tr := by
  unfold extract_trigger_types
  simp [hini, htri]

lemma subtype_strip (env : Env) (hini : env.openaiInit = true) (hsub : env.subtypeRaises = false) :
    decide_reappraisal_subtype env = .ok (pyStripS env.subtypeContent) := by
  unfold decide_reappraisal_subtype
  simp [hini, hsub]

lemma decide_strategy_call_ok (e : String) (env : Env)
    (hini : env.openaiInit = true) (hsub : env.subtypeRaises = false)
    (hkey : pyStripS env.subtypeContent ∈ ["Agency Cognitive Change", "Positive Cognitive Change"]) :
    ∃ out, decide_strategy_call e env = .ok out := by
  unfold decide_strategy_call
  split
  · exact decide_strategy_ok_of_key e _ (by simp [strategyKeys])
  · rw [subtype_strip env hini hsub]
    refine decide_strategy_ok_of_key e _ ?_
    simp only [List.mem_cons, List.not_mem_nil, or_false] at hkey
    rcases hkey with h | h <;> rw [h] <;> simp [strategyKeys]

lemma exitPhase1_ok (env : Env) (rec1 : InterventionRec) (hts : List ChatMsg)
    (hini : env.openaiInit = true) (hemo : env.emotionRaises = false)
    (htri : env.triggerRaises = false) (hsub : env.subtypeRaises = false)
    (hkey : pyStripS env.subtypeContent ∈ ["Agency Cognitive Change", "Positive Cognitive Change"]) :
    ∃ pr, exitPhase1 env rec1 hts = .ok pr := by
  unfold exitPhase1
  obtain ⟨tr, htr⟩ := extract_ok env hini htri
  obtain ⟨ec, hec⟩ := identify_ok env hini hemo
  obtain ⟨out, hout⟩ := decide_strategy_call_ok ec.1 env hini hsub hkey
  rw [htr, hec]
  dsimp only
  rw [hout]
  rcases tr with l | _
  · rcases l with _ | ⟨t, ts⟩ <;> exact ⟨_, rfl⟩
  · exact ⟨_, rfl⟩

lemma exitPhase2a_ok (env : Env) (rec1 : InterventionRec) (hts : List ChatMsg)
    (hini : env.openaiInit = true) (hemo : env.emotionRaises = false) :
    ∃ pr, exitPhase2a env rec1 hts = .ok pr := by
  unfold exitPhase2a
  obtain ⟨ec, hec⟩ := identify_ok env hini hemo
  rw [hec]
  exact ⟨_, rfl⟩

lemma exitPhase2b_ok (env : Env) (rec1 : InterventionRec) (hts : List ChatMsg)
    (hini : env.openaiInit = true) (hemo : env.emotionRaises = false) :
    ∃ pr, exitPhase2b env rec1 hts = .ok pr := by
  unfold exitPhase2b
  obtain ⟨ec, hec⟩ := identify_ok env hini hemo
  rw [hec]
  exact ⟨_, rfl⟩

lemma exitPhase3_advances (env : Env) (rec1 : InterventionRec) (hts : List ChatMsg)
    (hini : env.openaiInit = true) (hemo : env.emotionRaises = false)
    (hok : env.commitOk = true) :
    (∃ r2 resp, exitPhase3 env rec1 hts = .ok (r2, resp) ∧ r2.current_phase = some "4") ∨
    (∃ r2, exitPhase3 env rec1 hts = .error (some r2) ∧ r2.current_phase = some "4") := by
  unfold exitPhase3
  obtain ⟨ec, hec⟩ := identify_ok env hini hemo
  rw [hec]
  dsimp only
  rcases hw : env.werkzeugAvailable with _ | _
  · rw [if_neg (by simp)]
    right
    refine ⟨_, rfl, ?_⟩
    unfold tryCommit
    simp only [hok, if_true]
  · rw [if_pos rfl]
    left
    refine ⟨_, _, rfl, ?_⟩
    unfold tryCommit
    simp only [hok, if_true]

lemma exitPhase1_emotion_raises (env : Env) (rec1 : InterventionRec) (hts : List ChatMsg)
    (hini : env.openaiInit = true) (htri : env.triggerRaises = false)
    (hemo : env.emotionRaises = true) :
    exitPhase1 env rec1 hts = .error (some rec1) := by
  unfold exitPhase1
  obtain ⟨tr, htr⟩ := extract_ok env hini htri
  have hid : identify_emotion_plutchik env = .error () := by
    unfold identify_emotion_plutchik
    simp [hini, hemo]
  rw [htr, hid]

lemma exitPhase2b_commit_fail (env : Env) (rec1 : InterventionRec) (hts : List ChatMsg)
    (hini : env.openaiInit = true) (hemo : env.emotionRaises = false)
    (hfail : env.commitOk = false) :
    exitPhase2b env rec1 hts =
      .ok (rec1, .ok [env.summaryText] (hts ++ [ChatMsg.mk "assistant" env.summaryText])) := by
  unfold exitPhase2b
  obtain ⟨ec, hec⟩ := identify_ok env hini hemo
  rw [hec]
  dsimp only
  simp [tryCommit, hfail]

lemma pre_rec1_eq (env : Env) (r : InterventionRec) (h : r.insert_system_prompt = some "initial") :
    tryCommit env r { r with insert_system_prompt := some "initial" } = r := by
  have hr : { r with insert_system_prompt := some "initial" } = r := by
    cases r
    simp_all
  rw [hr]
  unfold tryCommit
  split <;> rfl

lemma chat_dispatch (req : ChatRequest) (env : Env) (r : InterventionRec)
    (hnew : req.is_new_session = false)
    (hcmd : is_endphase_command req.user_message endphaseThresholdDefault = true) :
    chat req env (some r) =
      match
        (if r.current_phase = some "1" then
          exitPhase1 env r (req.history ++ [ChatMsg.mk "user" req.user_message])
        else if r.current_phase = some "2a" then
          exitPhase2a env r (req.history ++ [ChatMsg.mk "user" req.user_message])
        else if r.current_phase = some "2b" then
          exitPhase2b env r (req.history ++ [ChatMsg.mk "user" req.user_message])
        else if r.current_phase = some "3" then
          exitPhase3 env r (req.history ++ [ChatMsg.mk "user" req.user_message])
        else
          .ok (r, .ok [lostMyPlaceReply]
            (req.history ++ [ChatMsg.mk "user" req.user_message] ++
              [ChatMsg.mk "assistant" lostMyPlaceReply]))) with
      | .ok pr => ⟨some pr.1, pr.2, none⟩
      | .error (some r2) => ⟨some r2, .httpError 500, none⟩
      | .error none => ⟨some r, .httpError 500, none⟩ := by
  unfold chat chatInner
  by_cases hm : r.insert_system_prompt = some "initial"
  · simp only [hnew, Bool.false_eq_true, if_false, hm, eq_self_iff_true, if_true, hcmd,
      pre_rec1_eq env r hm]
    repeat' split
    all_goals first
      | rfl
      | simp_all
  · simp only [hnew, Bool.false_eq_true, if_false, hm, eq_self_iff_true, if_true, hcmd]
    repeat' split
    all_goals first
      | rfl
      | simp_all

lemma chat_continue (req : ChatRequest) (env : Env) (r : InterventionRec)
    (hnew : req.is_new_session = false)
    (hcmdf : is_endphase_command req.user_message endphaseThresholdDefault = false) :
    ∃ r2 resp sent, chat req env (some r) = ⟨some r2, resp, sent⟩ ∧
      r2.current_phase = r.current_phase := by
  unfold chat chatInner
  by_cases hm : r.insert_system_prompt = some "initial"
  · simp only [hnew, Bool.false_eq_true, if_false, hm, eq_self_iff_true, if_true, hcmdf,
      pre_rec1_eq env r hm]
    obtain ⟨out, hout, hph⟩ := nonCommandStep_ok env r _ _ _
    rw [hout]
    exact ⟨out.1, out.2.1, out.2.2, rfl, hph⟩
  · simp only [hnew, Bool.false_eq_true, if_false, hm, eq_self_iff_true, if_true, hcmdf]
    obtain ⟨out, hout, hph⟩ := nonCommandStep_ok env r _ _ _
    rw [hout]
    exact ⟨out.1, out.2.1, out.2.2, rfl, hph⟩

lemma chat_record_isSome (req : ChatRequest) (env : Env) (r : InterventionRec) :
    ∃ r', (chat req env (some r)).record = some r' := by
  unfold chat
  rcases hc : chatInner req env (some r) with o | p
  · rcases o with _ | r'
    · exact ⟨r, rfl⟩
    · exact ⟨r', rfl⟩
  · rcases p with ⟨r', resp, sent⟩
    exact ⟨r', rfl⟩

lemma chat_continue_eq (req : ChatRequest) (env : Env) (r : InterventionRec)
    (hnew : req.is_new_session = false)
    (hcmdf : is_endphase_command req.user_message endphaseThresholdDefault = false)
    (hm : ¬r.insert_system_prompt = some "initial") :
    chat req env (some r) =
      match nonCommandStep env r r.insert_system_prompt
          (req.history ++ [ChatMsg.mk "user" req.user_message])
          (req.history ++ [ChatMsg.mk "user" req.user_message]) with
      | .ok t => ⟨some t.1, t.2.1, t.2.2⟩
      | .error (some r2) => ⟨some r2, .httpError 500, none⟩
      | .error none => ⟨some r, .httpError 500, none⟩ := by
  unfold chat chatInner
  simp only [hnew, Bool.false_eq_true, if_false, hm, eq_self_iff_true, if_true, hcmdf]
  repeat' split
  all_goals first
    | rfl
    | simp_all

lemma chat_command_advances (req : ChatRequest) (env : Env) (r r' : InterventionRec) (p : String)
    (hnew : req.is_new_session = false)
    (hcmd : is_endphase_command req.user_message endphaseThresholdDefault = true)
    (hok : env.commitOk = true) (hini : env.openaiInit = true)
    (hemo : env.emotionRaises = false) (htri : env.triggerRaises = false)
    (hsub : env.subtypeRaises = false)
    (hkey : pyStripS env.subtypeContent ∈ ["Agency Cognitive Change", "Positive Cognitive Change"])
    (hp : r.current_phase = some p) (hmem : p ∈ ["1", "2a", "2b", "3"])
    (h : (chat req env (some r)).record = some r') :
    r'.current_phase = some (phaseSucc p) := by
  rw [chat_dispatch req env r hnew hcmd] at h
  simp only [List.mem_cons, List.not_mem_nil, or_false] at hmem
  rcases hmem with rfl | rfl | rfl | rfl
  · rw [if_pos hp] at h
    obtain ⟨pr, hpr⟩ := exitPhase1_ok env r _ hini hemo htri hsub hkey
    rw [hpr] at h
    dsimp only at h
    injection h with h1
    have hph := exitPhase1_ok_phase env r _ pr.1 pr.2 hpr
    rw [← h1, hph, if_pos hok]
    rfl
  · rw [if_neg (by rw [hp]; decide), if_pos hp] at h
    obtain ⟨pr, hpr⟩ := exitPhase2a_ok env r _ hini hemo
    rw [hpr] at h
    dsimp only at h
    injection h with h1
    have hph := exitPhase2a_ok_phase env r _ pr.1 pr.2 hpr
    rw [← h1, hph, if_pos hok]
    rfl
  · rw [if_neg (by rw [hp]; decide), if_neg (by rw [hp]; decide), if_pos hp] at h
    obtain ⟨pr, hpr⟩ := exitPhase2b_ok env r _ hini hemo
    rw [hpr] at h
    dsimp only at h
    injection h with h1
    have hph := exitPhase2b_ok_phase env r _ pr.1 pr.2 hpr
    rw [← h1, hph, if_pos hok]
    rfl
  · rw [if_neg (by rw [hp]; decide), if_neg (by rw [hp]; decide),
      if_neg (by rw [hp]; decide), if_pos hp] at h
    rcases exitPhase3_advances env r
        (req.history ++ [ChatMsg.mk "user" req.user_message]) hini hemo hok with
      ⟨r2, resp, hx, hph⟩ | ⟨r2, hx, hph⟩
    · rw [hx] at h
      dsimp only at h
      injection h with h1
      rw [← h1]
      exact hph
    · rw [hx] at h
      dsimp only at h
      injection h with h1
      rw [← h1]
      exact hph

lemma chat_phase_mono (req : ChatRequest) (env : Env) (r r' : InterventionRec)
    (hnew : req.is_new_session = false)
    (h : (chat req env (some r)).record = some r') :
    phaseRank r.current_phase ≤ phaseRank r'.current_phase ∧
      phaseRank r'.current_phase ≤ phaseRank r.current_phase + 1 := by
  rcases hcm : is_endphase_command req.user_message endphaseThresholdDefault with _ | _
  · obtain ⟨r2, resp, sent, heq, hph⟩ := chat_continue req env r hnew hcm
    rw [heq] at h
    dsimp only at h
    injection h with h1
    rw [← h1, hph]
    exact ⟨le_refl _, Nat.le_succ _⟩
  · rw [chat_dispatch req env r hnew hcm] at h
    by_cases h1 : r.current_phase = some "1"
    · rw [if_pos h1] at h
      rcases hx : exitPhase1 env r (req.history ++ [ChatMsg.mk "user" req.user_message]) with o | pr
      · have ho := exitPhase1_err env r _ o hx
        rw [hx, ho] at h
        dsimp only at h
        injection h with he
        rw [← he]
        exact ⟨le_refl _, Nat.le_succ _⟩
      · rw [hx] at h
        dsimp only at h
        injection h with he
        have hph := exitPhase1_ok_phase env r _ pr.1 pr.2 hx
        rw [← he, hph, h1]
        rcases env.commitOk with _ | _ <;> simp [phaseRank, h1]
    case neg =>
    rw [if_neg h1] at h
    by_cases h2 : r.current_phase = some "2a"
    · rw [if_pos h2] at h
      rcases hx : exitPhase2a env r (req.history ++ [ChatMsg.mk "user" req.user_message]) with o | pr
      · have ho := exitPhase2a_err env r _ o hx
        rw [hx, ho] at h
        dsimp only at h
        injection h with he
        rw [← he]
        exact ⟨le_refl _, Nat.le_succ _⟩
      · rw [hx] at h
        dsimp only at h
        injection h with he
        have hph := exitPhase2a_ok_phase env r _ pr.1 pr.2 hx
        rw [← he, hph, h2]
        rcases env.commitOk with _ | _ <;> simp [phaseRank, h2]
    case neg =>
    rw [if_neg h2] at h
    by_cases h3 : r.current_phase = some "2b"
    · rw [if_pos h3] at h
      rcases hx : exitPhase2b env r (req.history ++ [ChatMsg.mk "user" req.user_message]) with o | pr
      · have ho := exitPhase2b_err env r _ o hx
        rw [hx, ho] at h
        dsimp only at h
        injection h with he
        rw [← he]
        exact ⟨le_refl _, Nat.le_succ _⟩
      · rw [hx] at h
        dsimp only at h
        injection h with he
        have hph := exitPhase2b_ok_phase env r _ pr.1 pr.2 hx
        rw [← he, hph, h3]
        rcases env.commitOk with _ | _ <;> simp [phaseRank, h3]
    case neg =>
    rw [if_neg h3] at h
    by_cases h4 : r.current_phase = some "3"
    · rw [if_pos h4] at h
      rcases hx : exitPhase3 env r (req.history ++ [ChatMsg.mk "user" req.user_message]) with o | pr
      · rcases exitPhase3_err env r _ o hx with ho | ⟨r2, ho, hph⟩
        · rw [hx, ho] at h
          dsimp only at h
          injection h with he
          rw [← he]
          exact ⟨le_refl _, Nat.le_succ _⟩
        · rw [hx, ho] at h
          dsimp only at h
          injection h with he
          rw [← he, hph, h4]
          rcases env.commitOk with _ | _ <;> simp [phaseRank, h4]
      · rw [hx] at h
        dsimp only at h
        injection h with he
        have hph := exitPhase3_ok_phase env r _ pr.1 pr.2 hx
        rw [← he, hph, h4]
        rcases env.commitOk with _ | _ <;> simp [phaseRank, h4]
    case neg =>
    rw [if_neg h4] at h
    dsimp only at h
    injection h with he
    rw [← he]
    exact ⟨le_refl _, Nat.le_succ _⟩

/-! ## Claim theorems -/

/-- C9: `is_endphase_command` strips and lowercases its input and returns
`true` iff the `SequenceMatcher` similarity ratio between the normalised
input and the literal token `"endphase()"` is at least the threshold
(default 0.7): `"endphase()"` and `"endphaze("` match at the default
threshold, `"hello"` and the empty string do not, and the empty string has
ratio `0`, so it never matches any positive threshold.  The embedding is a
pure function, so the matcher has no side effects. -/
theorem c9_matcher_contract :
    endphaseThresholdDefault = 7 / 10 ∧
    (∀ s th, is_endphase_command s th =
        decide (smRatio (pyLower (pyStrip s.data)) breakSentence ≥ th)) ∧
    is_endphase_command "endphase()" endphaseThresholdDefault = true ∧
    is_endphase_command "endphaze(" endphaseThresholdDefault = true ∧
    is_endphase_command "hello" endphaseThresholdDefault = false ∧
    is_endphase_command "" endphaseThresholdDefault = false ∧
    smRatio (pyLower (pyStrip ("" : String).data)) breakSentence = 0 ∧
    (∀ th : ℚ, 0 < th → is_endphase_command "" th = false) := by
  refine ⟨?_, fun s th => rfl, by decide, by decide, by decide, by decide, by decide, ?_⟩
  · rw [endphaseThresholdDefault, Rat.mkRat_eq_divInt]
    norm_num [Rat.divInt_eq_div]
  · intro th h
    have h0 : smRatio (pyLower (pyStrip ("" : String).data)) breakSentence = 0 := by decide
    show decide (smRatio (pyLower (pyStrip ("" : String).data)) breakSentence ≥ th) = false
    rw [h0]
    simp only [decide_eq_false_iff_not, ge_iff_le, not_le]
    exact h

/-- C9 witness: the hypothesised clause applied at threshold `1`. -/
theorem c9_matcher_contract_witness : is_endphase_command "" 1 = false :=
  c9_matcher_contract.2.2.2.2.2.2.2 1 (by norm_num)

/-- C3: the strategy-id pair is a deterministic, total function of the
coarse category and the reappraisal-subtype result: every label maps to one
of the nine categories, unrecognised labels fall back to `neutral`;
fear/surprise/sadness/anger and neutral yield
(`Attentional Deployment`, subtype result), joy/trust yield
(`Attentional Deployment`, `Response Modulation`), disgust yields
(`Situation Modification`, subtype result); and the sadness/Positive
scenario produces exactly that pair. -/
theorem c3_strategy_table :
    (∀ e, emotionBase e ∈
        ["anger", "anticipation", "joy", "trust", "fear", "surprise", "sadness", "disgust", "neutral"]) ∧
    (∀ e, e ∉ ["rage", "anger", "annoyance", "vigilance", "anticipation", "interest",
        "ecstasy", "joy", "serenity", "admiration", "trust", "acceptance",
        "terror", "fear", "apprehension", "shame", "guilt",
        "amazement", "surprise", "distraction", "grief", "sadness", "pensiveness",
        "loathing", "disgust", "boredom"] → emotionBase e = "neutral") ∧
    (∀ base sub, base ∈ ["fear", "surprise", "sadness", "anger"] ∨ base = "neutral" →
        chooseStrategyPair base sub = ("Attentional Deployment", sub)) ∧
    (∀ base sub, base ∈ ["joy", "trust"] →
        chooseStrategyPair base sub = ("Attentional Deployment", "Response Modulation")) ∧
    (∀ sub, chooseStrategyPair "disgust" sub = ("Situation Modification", sub)) ∧
    decide_strategy "sadness" "Positive Cognitive Change" =
      Except.ok ("Attentional Deployment", attentionalDeploymentBody "sadness",
        "Positive Cognitive Change", positiveCognitiveChangeBody) := by
  refine ⟨emotionBase_mem, ?_, ?_, ?_, ?_, by rfl⟩
  · intro e h
    unfold emotionBase
    split_ifs <;> simp_all
  · intro base sub h
    rcases h with h | rfl
    · simp only [List.mem_cons, List.not_mem_nil, or_false] at h
      rcases h with rfl | rfl | rfl | rfl <;> rfl
    · rfl
  · intro base sub h
    simp only [List.mem_cons, List.not_mem_nil, or_false] at h
    rcases h with rfl | rfl <;> rfl
  · intro sub
    rfl

/-- C3 witness: concrete instantiations discharging each hypothesis. -/
theorem c3_strategy_table_witness :
    emotionBase "confusion" = "neutral" ∧
    chooseStrategyPair "sadness" "Positive Cognitive Change" =
      ("Attentional Deployment", "Positive Cognitive Change") ∧
    chooseStrategyPair "joy" "Positive Cognitive Change" =
      ("Attentional Deployment", "Response Modulation") ∧
    chooseStrategyPair "disgust" "Agency Cognitive Change" =
      ("Situation Modification", "Agency Cognitive Change") :=
  ⟨c3_strategy_table.2.1 "confusion" (by decide),
   c3_strategy_table.2.2.1 "sadness" "Positive Cognitive Change" (Or.inl (by decide)),
   c3_strategy_table.2.2.2.1 "joy" "Positive Cognitive Change" (by decide),
   c3_strategy_table.2.2.2.2.1 "Agency Cognitive Change"⟩

/-- C10 counterexample: the claim says *any* sub-call value other than the
two reappraisal template keys makes the final lookup raise `KeyError`, but
`"Response Modulation"` — not one of the two — is a `strategies` dict key,
so `decide_strategy` succeeds on it instead of raising. -/
theorem c10_keyerror_cex :
    "Response Modulation" ∉ ["Agency Cognitive Change", "Positive Cognitive Change"] ∧
    decide_strategy "sadness" "Response Modulation" =
      Except.ok ("Attentional Deployment", attentionalDeploymentBody "sadness",
        "Response Modulation", responseModulationBody "sadness") :=
  ⟨by decide, by rfl⟩

/-- C10 amended: `decide_strategy` returns without error whenever the
sub-call result is one of the two reappraisal template keys (so under the
sub-call's documented contract the `KeyError` branch is unreachable), and
the eagerly evaluated default of `strategies.get(second, strategies[second])`
raises `KeyError` exactly when the chosen `second` — the sub-call result, on
every branch except joy/trust — is not one of the six `strategies` dict
keys. -/
theorem c10_keyerror_condition :
    (∀ e sub, sub ∈ ["Agency Cognitive Change", "Positive Cognitive Change"] →
        ∃ out, decide_strategy e sub = Except.ok out) ∧
    (∀ e sub, sub ∉ strategyKeys → emotionBase e ∉ ["joy", "trust"] →
        decide_strategy e sub = Except.error ()) := by
  constructor
  · intro e sub h
    refine decide_strategy_ok_of_key e sub ?_
    simp only [List.mem_cons, List.not_mem_nil, or_false] at h
    rcases h with rfl | rfl <;> simp [strategyKeys]
  · intro e sub hk hb
    unfold decide_strategy
    have hf : (chooseStrategyPair (emotionBase e) sub).1 ∈ strategyKeys := by
      rcases chooseStrategyPair_first (emotionBase e) sub with h1 | h1 <;>
        rw [h1] <;> simp [strategyKeys]
    obtain ⟨v1, hv1⟩ := lookup_strategies_some e _ hf
    rw [chooseStrategyPair_second_eq (emotionBase e) sub hb, hv1,
      lookup_strategies_none e sub hk]

/-- C10 witness: the two clauses at concrete inputs (an over-long model
answer for the failing side). -/
theorem c10_keyerror_condition_witness :
    (∃ out, decide_strategy "sadness" "Agency Cognitive Change" = Except.ok out) ∧
    decide_strategy "sadness" "I would use Agency Cognitive Change" = Except.error () :=
  ⟨c10_keyerror_condition.1 "sadness" "Agency Cognitive Change" (by decide),
   c10_keyerror_condition.2 "sadness" "I would use Agency Cognitive Change" (by decide) (by decide)⟩

/-- C1 counterexample: the claim promises that the second of two `endphase()`
commands in immediate succession is guarded and does not advance the phase a
second time; in fact the first command moves `"1"` to `"2a"` and the second,
unguarded, moves `"2a"` on to `"2b"` — two phase advances. -/
theorem c1_duplicate_command_cex :
    c1FirstRecord.map (fun r => r.current_phase) = some (some "2a") ∧
    c1SecondRecord.map (fun r => r.current_phase) = some (some "2b") := by
  constructor <;> decide

/-- C1 amended: each end-phase command match executes exactly one phase exit
of the then-current phase; there is no idempotency guard, so two command
messages in immediate succession advance the phase twice, one step each. -/
theorem c1_no_idempotency_guard (env : Env) (r r' r'' : InterventionRec) (p : String)
    (hok : env.commitOk = true) (hini : env.openaiInit = true)
    (hemo : env.emotionRaises = false) (htri : env.triggerRaises = false)
    (hsub : env.subtypeRaises = false)
    (hkey : pyStripS env.subtypeContent ∈ ["Agency Cognitive Change", "Positive Cognitive Change"])
    (hp : r.current_phase = some p) (hmem : p ∈ ["1", "2a", "2b"])
    (h1 : (chat endphaseReq env (some r)).record = some r')
    (h2 : (chat endphaseReq env (some r')).record = some r'') :
    r'.current_phase = some (phaseSucc p) ∧
      r''.current_phase = some (phaseSucc (phaseSucc p)) := by
  have hcmd : is_endphase_command endphaseReq.user_message endphaseThresholdDefault = true := by
    decide
  have hmem4 : p ∈ ["1", "2a", "2b", "3"] := by
    simp only [List.mem_cons, List.not_mem_nil, or_false] at hmem ⊢
    tauto
  have e1 := chat_command_advances endphaseReq env r r' p rfl hcmd hok hini hemo htri hsub
    hkey hp hmem4 h1
  have hmem4' : phaseSucc p ∈ ["1", "2a", "2b", "3"] := by
    simp only [List.mem_cons, List.not_mem_nil, or_false] at hmem
    rcases hmem with rfl | rfl | rfl <;> decide
  have e2 := chat_command_advances endphaseReq env r' r'' (phaseSucc p) rfl hcmd hok hini hemo
    htri hsub hkey e1 hmem4' h2
  exact ⟨e1, e2⟩

/-- C1 witness: the amended theorem at `goodEnv` from phase `"1"`. -/
theorem c1_no_idempotency_guard_witness :
    c1FirstRecord.map (fun r => r.current_phase) = some (some (phaseSucc "1")) ∧
    c1SecondRecord.map (fun r => r.current_phase) =
      some (some (phaseSucc (phaseSucc "1"))) := by
  obtain ⟨r', h1⟩ := chat_record_isSome endphaseReq goodEnv phase1Rec
  obtain ⟨r'', h2⟩ := chat_record_isSome endphaseReq goodEnv r'
  obtain ⟨e1, e2⟩ := c1_no_idempotency_guard goodEnv phase1Rec r' r'' "1" rfl rfl rfl rfl rfl
    (by decide) rfl (by decide) h1 h2
  constructor
  · simp only [c1FirstRecord, h1, Option.map_some']
    exact congrArg some e1
  · simp only [c1SecondRecord, c1FirstRecord, h1, Option.some_bind, h2, Option.map_some']
    exact congrArg some e2

/-- C2: for every ongoing-session request, the stored phase only moves
forward along Identification < StrategyOne < StrategyTwo < Reflection <
Closed and by at most one step; a non-command message never changes the
phase; and a command message with a successful commit moves a known phase to
its immediate successor. -/
theorem c2_phase_forward_only (req : ChatRequest) (env : Env) (r r' : InterventionRec)
    (hnew : req.is_new_session = false)
    (h : (chat req env (some r)).record = some r') :
    (phaseRank r.current_phase ≤ phaseRank r'.current_phase ∧
      phaseRank r'.current_phase ≤ phaseRank r.current_phase + 1) ∧
    (is_endphase_command req.user_message endphaseThresholdDefault = false →
      r'.current_phase = r.current_phase) ∧
    (∀ p, is_endphase_command req.user_message endphaseThresholdDefault = true →
      env.commitOk = true → env.openaiInit = true → env.emotionRaises = false →
      env.triggerRaises = false → env.subtypeRaises = false →
      pyStripS env.subtypeContent ∈ ["Agency Cognitive Change", "Positive Cognitive Change"] →
      r.current_phase = some p → p ∈ ["1", "2a", "2b", "3"] →
      r'.current_phase = some (phaseSucc p)) := by
  refine ⟨chat_phase_mono req env r r' hnew h, ?_, ?_⟩
  · intro hcm
    obtain ⟨r2, resp, sent, heq, hph⟩ := chat_continue req env r hnew hcm
    rw [heq] at h
    dsimp only at h
    injection h with h1
    rw [← h1]
    exact hph
  · intro p hcm hok hini hemo htri hsub hkey hp hmem
    exact chat_command_advances req env r r' p hnew hcm hok hini hemo htri hsub hkey hp hmem h

/-- C2 witness: the successor clause at `goodEnv` from phase `"1"`. -/
theorem c2_phase_forward_only_witness :
    c1FirstRecord.map (fun r => r.current_phase) = some (some (phaseSucc "1")) := by
  obtain ⟨r', h1⟩ := chat_record_isSome endphaseReq goodEnv phase1Rec
  have := (c2_phase_forward_only endphaseReq goodEnv phase1Rec r' rfl h1).2.2 "1"
    (by decide) rfl rfl rfl rfl rfl (by decide) rfl (by decide)
  simp only [c1FirstRecord, h1, Option.map_some']
  exact congrArg some this

/-- C5 counterexample: the claim says a command in the Closed phase draws a
reply restating that the session has ended; in fact phase `"4"` matches no
arm of the dispatch and falls into the unknown-phase fallback, whose reply
is the generic lost-my-place text — a different statement from the
program's only session-concluded notice. -/
theorem c5_closed_reply_cex :
    (chat endphaseReq goodEnv (some closedRec)).resp =
      .ok [lostMyPlaceReply]
        [ChatMsg.mk "user" "endphase()", ChatMsg.mk "assistant" lostMyPlaceReply] ∧
    lostMyPlaceReply ≠ session_end_system_prompt ∧
    (chat endphaseReq goodEnv (some closedRec)).record = some closedRec := by
  refine ⟨by decide, by decide, by decide⟩

/-- C5 amended: an end-phase command on a session already in the Closed
phase (`"4"`) is a no-op — no further exit, no state mutation, and a normal
response is served — but the reply is the generic
`I seem to have lost my place...` fallback, not a restatement that the
session has ended. -/
theorem c5_closed_phase_noop (req : ChatRequest) (env : Env) (r : InterventionRec)
    (hnew : req.is_new_session = false)
    (hcmd : is_endphase_command req.user_message endphaseThresholdDefault = true)
    (hp : r.current_phase = some "4") :
    chat req env (some r) =
      ⟨some r,
        .ok [lostMyPlaceReply]
          (req.history ++ [ChatMsg.mk "user" req.user_message] ++
            [ChatMsg.mk "assistant" lostMyPlaceReply]), none⟩ := by
  rw [chat_dispatch req env r hnew hcmd]
  rw [if_neg (by rw [hp]; decide), if_neg (by rw [hp]; decide),
    if_neg (by rw [hp]; decide), if_neg (by rw [hp]; decide)]

/-- C5 witness: the amended theorem at the concrete Closed-phase record. -/
theorem c5_closed_phase_noop_witness :
    chat endphaseReq goodEnv (some closedRec) =
      ⟨some closedRec,
        .ok [lostMyPlaceReply]
          (endphaseReq.history ++ [ChatMsg.mk "user" endphaseReq.user_message] ++
            [ChatMsg.mk "assistant" lostMyPlaceReply]), none⟩ :=
  c5_closed_phase_noop endphaseReq goodEnv closedRec rfl (by decide) rfl

/-- C6: a request for an ongoing session whose record is missing creates a
fresh record and is served normally (never failed), *but* — against the
claim, the spec, and the source's own comment at line 1091 — the
recovery-path constructor passes neither `current_phase` nor
`insert_system_prompt` (unlike the new-session constructor) and the
`is_new_session = True` it sets at line 1092 is never read again, so the
recovered session is not in Identification (`"1"`), has no initial prompt
pending, and a subsequent command lands in the unknown-phase fallback. -/
theorem c6_recovery_no_identification :
    (chat (ChatRequest.mk "hi" [] false) goodEnv none).record = some recoveredRec ∧
    (chat (ChatRequest.mk "hi" [] false) goodEnv none).resp =
      .ok ["REPLY"] [ChatMsg.mk "user" "hi", ChatMsg.mk "assistant" "REPLY"] ∧
    recoveredRec.current_phase = none ∧
    recoveredRec.insert_system_prompt = none ∧
    newSessionRec.current_phase = some "1" ∧
    newSessionRec.insert_system_prompt = some "initial" ∧
    (chat endphaseReq goodEnv (some recoveredRec)).resp =
      .ok [lostMyPlaceReply]
        [ChatMsg.mk "user" "endphase()", ChatMsg.mk "assistant" lostMyPlaceReply] := by
  refine ⟨by decide, by decide, rfl, rfl, rfl, rfl, by decide⟩

/-- C7 counterexample: the claim says a *failed* classifier call still lets
the exit complete with neutral defaults; in fact only the JSON parse sits in
the `try`, so an exception from the call itself propagates to the outermost
handler — the request answers HTTP 500 and the phase-1 exit does not
complete (the record is unchanged). -/
theorem c7_classifier_raise_cex :
    (chat endphaseReq envEmotionRaises (some phase1Rec)).resp = .httpError 500 ∧
    (chat endphaseReq envEmotionRaises (some phase1Rec)).record = some phase1Rec := by
  refine ⟨by decide, by decide⟩

/-- C7 amended: when a classifier call returns *unparseable* output, the
neutral defaults (emotion `"neutral"`, confidence 0.5, empty trigger list)
are substituted and the phase-1 exit still completes; but when the call
itself raises, the exception propagates — the request is answered with HTTP
500 and the exit is aborted with the record unchanged.  (An uninitialised
client likewise yields the sentinel `"error_openai_not_init"`, not
`"neutral"`.) -/
theorem c7_failure_semantics :
    (∀ env : Env, env.openaiInit = true → env.emotionRaises = false →
      env.emotionParse = none →
      identify_emotion_plutchik env = .ok ("neutral", mkRat 1 2)) ∧
    (∀ env : Env, env.openaiInit = true → env.triggerRaises = false →
      env.triggerParse = none →
      extract_trigger_types env = .ok (.list [])) ∧
    (∀ (req : ChatRequest) (env : Env) (r r' : InterventionRec),
      req.is_new_session = false →
      is_endphase_command req.user_message endphaseThresholdDefault = true →
      env.openaiInit = true → env.commitOk = true → env.emotionRaises = false →
      env.triggerRaises = false → env.subtypeRaises = false →
      pyStripS env.subtypeContent ∈ ["Agency Cognitive Change", "Positive Cognitive Change"] →
      r.current_phase = some "1" →
      (chat req env (some r)).record = some r' →
      r'.current_phase = some "2a") ∧
    (∀ (req : ChatRequest) (env : Env) (r : InterventionRec),
      req.is_new_session = false →
      is_endphase_command req.user_message endphaseThresholdDefault = true →
      env.openaiInit = true → env.triggerRaises = false → env.emotionRaises = true →
      r.current_phase = some "1" →
      chat req env (some r) = ⟨some r, .httpError 500, none⟩) := by
  refine ⟨?_, ?_, ?_, ?_⟩
  · intro env hini hemo hparse
    unfold identify_emotion_plutchik
    simp [hini, hemo, hparse]
  · intro env hini htri hparse
    unfold extract_trigger_types
    simp [hini, htri, hparse]
  · intro req env r r' hnew hcmd hini hok hemo htri hsub hkey hp h
    exact chat_command_advances req env r r' "1" hnew hcmd hok hini hemo htri hsub hkey hp
      (by decide) h
  · intro req env r hnew hcmd hini htri hemo hp
    rw [chat_dispatch req env r hnew hcmd, if_pos hp,
      exitPhase1_emotion_raises env r _ hini htri hemo]

/-- C7 witness: the clauses at concrete environments — unparseable replies
yield the neutral defaults and the exit still reaches phase `"2a"`, while a
raising classifier aborts with HTTP 500. -/
theorem c7_failure_semantics_witness :
    identify_emotion_plutchik envUnparseable = .ok ("neutral", mkRat 1 2) ∧
    extract_trigger_types envUnparseable = .ok (.list []) ∧
    c7AfterRecord.map (fun r => r.current_phase) = some (some "2a") ∧
    chat endphaseReq envEmotionRaises (some phase1Rec) =
      ⟨some phase1Rec, .httpError 500, none⟩ := by
  refine ⟨c7_failure_semantics.1 envUnparseable rfl rfl rfl,
    c7_failure_semantics.2.1 envUnparseable rfl rfl rfl, ?_,
    c7_failure_semantics.2.2.2 endphaseReq envEmotionRaises phase1Rec rfl (by decide)
      rfl rfl rfl rfl⟩
  obtain ⟨r', h1⟩ := chat_record_isSome endphaseReq envUnparseable phase1Rec
  have := c7_failure_semantics.2.2.1 endphaseReq envUnparseable phase1Rec r' rfl (by decide)
    rfl rfl rfl rfl rfl (by decide) rfl h1
  simp only [c7AfterRecord, h1, Option.map_some']
  exact congrArg some this

/-- C8 counterexample: the claim says a failed commit during the 2b→3 exit
is reported to the caller as a retryable error; in fact the rollback does
leave the phase at `"2b"`, but the failure is only printed server-side —
the caller receives the ordinary success payload carrying the phase-2b
summary, indistinguishable from a committed exit. -/
theorem c8_commit_failure_cex :
    (chat endphaseReq envCommitFail (some phase2bRec)).record = some phase2bRec ∧
    (chat endphaseReq envCommitFail (some phase2bRec)).resp =
      .ok ["SUMMARY"] [ChatMsg.mk "user" "endphase()", ChatMsg.mk "assistant" "SUMMARY"] := by
  refine ⟨by decide, by decide⟩

/-- C8 amended: if the commit of the StrategyTwo→Reflection (`"2b"`→`"3"`)
exit fails, the rollback leaves every stored field — the phase included —
unchanged, so `"2b"` is read back on reload; but the failure is only logged,
and the caller receives the normal success response carrying the phase-2b
summary rather than a retryable error. -/
theorem c8_commit_failure_rollback (req : ChatRequest) (env : Env) (r : InterventionRec)
    (hnew : req.is_new_session = false)
    (hcmd : is_endphase_command req.user_message endphaseThresholdDefault = true)
    (hp : r.current_phase = some "2b")
    (hini : env.openaiInit = true) (hemo : env.emotionRaises = false)
    (hfail : env.commitOk = false) :
    chat req env (some r) =
      ⟨some r,
        .ok [env.summaryText]
          (req.history ++ [ChatMsg.mk "user" req.user_message] ++
            [ChatMsg.mk "assistant" env.summaryText]), none⟩ := by
  rw [chat_dispatch req env r hnew hcmd]
  rw [if_neg (by rw [hp]; decide), if_neg (by rw [hp]; decide), if_pos hp,
    exitPhase2b_commit_fail env r _ hini hemo hfail]

/-- C4 counterexample: with the pending marker `"phase2a"` set, a stored
prompt `"P2A"`, and a client history already holding a system block
`"OLDPROMPT"`, the non-command path *prepends* the stored prompt — the prior
system block stays in the outgoing request instead of being replaced — and
afterwards the marker still reads `"phase2a"` instead of being cleared, so
the very next non-command message injects the same block again (falsifying
`injected exactly once`). -/
theorem c4_injection_not_cleared_cex :
    (chat contReq goodEnv (some phase2aRec)).sentToCompletion =
      some (ChatMsg.mk "system" "P2A" :: (sysHist ++ [ChatMsg.mk "user" "ok"])) ∧
    ChatMsg.mk "system" "OLDPROMPT" ∈ sysHist ∧
    (chat contReq goodEnv (some phase2aRec)).record.map (fun x => x.insert_system_prompt) =
      some (some "phase2a") ∧
    ((chat contReq goodEnv (some phase2aRec)).record.bind
        (fun r => (chat contReq goodEnv (some r)).sentToCompletion)) =
      some (ChatMsg.mk "system" "P2A" :: (sysHist ++ [ChatMsg.mk "user" "ok"])) := by
  refine ⟨by decide, by decide, by decide, by decide⟩

/-- C4 amended: on a non-command message with a pending instruction marker,
the stored `"phase2a"` and `"phase3"` blocks are always *prepended* at the
head of the outgoing completion request — even when a prior system-prompt
block is present — and the marker is rewritten with the same value rather
than cleared; only the `"phase2b"` block genuinely replaces the first system
block (with the marker again left set).  The block is therefore injected on
every subsequent non-command message of the phase, not exactly once. -/
theorem c4_injection_behavior :
    (∀ (req : ChatRequest) (env : Env) (r : InterventionRec) (p : String),
      req.is_new_session = false →
      is_endphase_command req.user_message endphaseThresholdDefault = false →
      env.openaiInit = true →
      r.insert_system_prompt = some "phase2a" → r.phase2_prompt = some p →
      (chat req env (some r)).sentToCompletion =
        some (ChatMsg.mk "system" p ::
          (req.history ++ [ChatMsg.mk "user" req.user_message])) ∧
      (chat req env (some r)).record.map (fun x => x.insert_system_prompt) =
        some (some "phase2a")) ∧
    (∀ (req : ChatRequest) (env : Env) (r : InterventionRec) (p : String),
      req.is_new_session = false →
      is_endphase_command req.user_message endphaseThresholdDefault = false →
      env.openaiInit = true →
      r.insert_system_prompt = some "phase2b" → r.phase2b_prompt = some p →
      (chat req env (some r)).sentToCompletion =
        some (replaceFirstSystem
          (req.history ++ [ChatMsg.mk "user" req.user_message]) p) ∧
      (chat req env (some r)).record.map (fun x => x.insert_system_prompt) =
        some (some "phase2b")) ∧
    (∀ (req : ChatRequest) (env : Env) (r : InterventionRec) (p : String),
      req.is_new_session = false →
      is_endphase_command req.user_message endphaseThresholdDefault = false →
      env.openaiInit = true →
      r.insert_system_prompt = some "phase3" → r.phase3_prompt = some p →
      (chat req env (some r)).sentToCompletion =
        some (ChatMsg.mk "system" p ::
          (req.history ++ [ChatMsg.mk "user" req.user_message])) ∧
      (chat req env (some r)).record.map (fun x => x.insert_system_prompt) =
        some (some "phase3")) := by
  refine ⟨?_, ?_, ?_⟩ <;>
  · intro req env r p hnew hcmdf hini hmk hpr
    have hm : ¬r.insert_system_prompt = some "initial" := by rw [hmk]; decide
    rw [chat_continue_eq req env r hnew hcmdf hm]
    unfold nonCommandStep injectPending
    rw [hmk, hpr]
    simp only [hini, Bool.not_true, Bool.false_eq_true, if_false]
    rcases hcr : env.completionRaises with _ | _ <;>
      rcases hco : env.commitOk with _ | _ <;>
        constructor <;>
          simp [tryCommit, hco, hmk]

/-- C4 witness: the phase-2a prepend (prior system block retained, marker
kept) and the phase-2b replace at concrete records. -/
theorem c4_injection_behavior_witness :
    ((chat contReq goodEnv (some phase2aRec)).sentToCompletion =
      some (ChatMsg.mk "system" "P2A" :: (sysHist ++ [ChatMsg.mk "user" "ok"])) ∧
     (chat contReq goodEnv (some phase2aRec)).record.map (fun x => x.insert_system_prompt) =
      some (some "phase2a")) ∧
    ((chat contReq goodEnv (some phase2bRec)).sentToCompletion =
      some (replaceFirstSystem (sysHist ++ [ChatMsg.mk "user" "ok"]) "P2B") ∧
     (chat contReq goodEnv (some phase2bRec)).record.map (fun x => x.insert_system_prompt) =
      some (some "phase2b")) :=
  ⟨c4_injection_behavior.1 contReq goodEnv phase2aRec "P2A" rfl (by decide) rfl rfl rfl,
   c4_injection_behavior.2.1 contReq goodEnv phase2bRec "P2B" rfl (by decide) rfl rfl rfl⟩

/-- C8 witness: the amended theorem at the concrete phase-`"2b"` record with
a failing commit. -/
theorem c8_commit_failure_rollback_witness :
    chat endphaseReq envCommitFail (some phase2bRec) =
      ⟨some phase2bRec,
        .ok [envCommitFail.summaryText]
          (endphaseReq.history ++ [ChatMsg.mk "user" endphaseReq.user_message] ++
            [ChatMsg.mk "assistant" envCommitFail.summaryText]), none⟩ :=
  c8_commit_failure_rollback endphaseReq envCommitFail phase2bRec rfl (by decide) rfl rfl rfl rfl

end Emoly
